import Mathlib

/-!
Verification of the token-tic-tak-arena point-settlement logic.

The definitions below are a shallow embedding of:
- the plpgsql ledger functions `deduct_game_points`, `reward_game_points`,
  `handle_game_loss` (migration 20251001191721) and the signup trigger
  `handle_new_user` (initial schema migration),
- the client game logic in `Lottery.tsx` (`drawWinner`, `cancelLottery`,
  `updateTimer`), `Pokie.tsx` (`checkWins`), `TicTacToe` (`checkWinner`),
  and the status writes in `GameSwitcher.tsx` / the lobby components.

SQL integers are modelled as `Int` (the claims under study are not about
32-bit overflow), table rows as Lean structures, and the per-user portion
of the database (one `profiles` row plus that user's `transactions` rows,
most recent first) as `UserState`.
-/

namespace TokenArena


/-- A row of the `transactions` table, restricted to the columns the ledger
functions read or write.  `game_id` is `none` for the signup-bonus row. -/
structure Txn where
  game_id : Option Nat
  amount : Int
  transaction_type : String
  description : String
deriving DecidableEq, Repr

/-- The mutable columns of a `profiles` row touched by the ledger functions
(`updated_at` is not modelled; it is rewritten by every update and excluded
by the claims). -/
structure Profile where
  username : String
  display_name : String
  points_balance : Int
  total_games_played : Int
  total_games_won : Int
  vip_level : Int
deriving DecidableEq, Repr

/-- One user's slice of the database: their profile row and their
transaction rows ordered most recent first (`ORDER BY created_at DESC`). -/
structure UserState where
  profile : Profile
  transactions : List Txn
deriving DecidableEq, Repr

/-- `profiles.points_balance` column default (initial schema). -/
def profilesBalanceDefault : Int := 1000

/-- Amount of the signup-bonus transaction inserted by `handle_new_user`. -/
def signupBonusAmount : Int := 1000

/-- `handle_new_user` trigger: inserts a `profiles` row (balance and
counters take the column defaults) and a `signup_bonus` transaction row. -/
def handle_new_user (username display_name : String) : UserState :=
  { profile :=
      { username := username
        display_name := display_name
        points_balance := profilesBalanceDefault
        total_games_played := 0
        total_games_won := 0
        vip_level := 0 }
    transactions :=
      [{ game_id := none
         amount := signupBonusAmount
         transaction_type := "signup_bonus"
         description := "Welcome bonus points" }] }

/-- Transaction type written by `reward_game_points` for a win. -/
def typeGameWin : String := "game_win"

/-- Transaction type written by `reward_game_points` for a draw refund. -/
def typeGameDraw : String := "game_draw"

/-- Transaction type written by `reward_game_points` otherwise. -/
def typeGameReward : String := "game_reward"

/-- Transaction type passed by the clients when joining a game. -/
def typeGameJoin : String := "game_join"

/-- Transaction description written by `deduct_game_points` for a bet. -/
def descBetPlaced : String := "Bet placed for game"

/-- Transaction description written by `deduct_game_points` for a join. -/
def descJoined : String := "Joined game"

/-- Fallback transaction description of `deduct_game_points`. -/
def descGenericTx : String := "Game transaction"

/-- `transaction_desc` value of `reward_game_points` for a draw refund. -/
def descDrawRefund : String := "Game draw refund"

/-- `transaction_desc` value of `reward_game_points` for a win. -/
def descWinReward : String := "Game win reward"

/-- Fallback `transaction_desc` value of `reward_game_points`. -/
def descGameReward : String := "Game reward"

/-- `deduct_game_points(p_user_id, p_game_id, p_bet_amount,
p_transaction_type)`: raises (modelled as `none`) when
`current_balance < p_bet_amount`; otherwise decrements the balance and
prepends a transaction row with amount `-p_bet_amount`. -/
def deduct_game_points (st : UserState) (game : Nat) (amount : Int)
    (ttype : String) : Option UserState :=
  if st.profile.points_balance < amount then
    none
  else
    some
      { profile :=
          { st.profile with
            points_balance := st.profile.points_balance - amount }
        transactions :=
          { game_id := some game
            amount := -amount
            transaction_type := ttype
            description :=
              if ttype = "game_bet" then descBetPlaced
              else if ttype = "game_join" then descJoined
              else descGenericTx } :: st.transactions }

/-- The SQL subselect
`SELECT ABS(amount) FROM transactions WHERE user_id = .. AND game_id = ..
AND amount < 0 ORDER BY created_at DESC LIMIT 1`:
absolute amount of the user's most recent negative transaction for the
game, `none` when there is no such row (SQL NULL). -/
def lastNegMagnitude (st : UserState) (game : Nat) : Option Int :=
  (st.transactions.find?
      (fun t => t.game_id == some game && decide (t.amount < 0))).map
    (fun t => |t.amount|)

/-- `reward_game_points(p_user_id, p_game_id, p_reward_amount)`: classifies
the reward by comparing it with `lastNegMagnitude` (a comparison with SQL
NULL is not true, so with no negative row both WHEN branches fail),
increments the balance and `total_games_played`, increments
`total_games_won` only for the win classification, and prepends the
transaction row. -/
def reward_game_points (st : UserState) (game : Nat) (amount : Int) :
    UserState :=
  let transaction_desc : String :=
    match lastNegMagnitude st game with
    | some m =>
        if amount = m then descDrawRefund
        else if amount = 2 * m then descWinReward
        else descGameReward
    | none => descGameReward
  { profile :=
      { st.profile with
        points_balance := st.profile.points_balance + amount
        total_games_played := st.profile.total_games_played + 1
        total_games_won :=
          if transaction_desc = descWinReward then
            st.profile.total_games_won + 1
          else st.profile.total_games_won }
    transactions :=
      { game_id := some game
        amount := amount
        transaction_type :=
          if transaction_desc = descWinReward then typeGameWin
          else if transaction_desc = descDrawRefund then typeGameDraw
          else typeGameReward
        description := transaction_desc } :: st.transactions }

/-- `handle_game_loss(p_user_id, p_game_id)`: increments
`total_games_played`; nothing else (no transaction row is inserted). -/
def handle_game_loss (st : UserState) (_game : Nat) : UserState :=
  { st with
    profile :=
      { st.profile with
        total_games_played := st.profile.total_games_played + 1 } }

/-- A call to one of the three ledger functions for this user. -/
inductive LedgerOp
  | deduct (game : Nat) (amount : Int) (ttype : String)
  | reward (game : Nat) (amount : Int)
  | loss (game : Nat)
deriving DecidableEq, Repr

/-- Effect of one ledger call on the user's state.  A failing
`deduct_game_points` raises, so the enclosing statement is rolled back and
the state is unchanged. -/
def applyLedgerOp (st : UserState) (op : LedgerOp) : UserState :=
  match op with
  | LedgerOp.deduct game amount ttype =>
      (deduct_game_points st game amount ttype).getD st
  | LedgerOp.reward game amount => reward_game_points st game amount
  | LedgerOp.loss game => handle_game_loss st game

/-- Run a sequence of ledger calls (earliest first). -/
def runLedger (st : UserState) (ops : List LedgerOp) : UserState :=
  ops.foldl applyLedgerOp st

/-- Signed sum of a list of transaction rows. -/
def txSum (l : List Txn) : Int := (l.map Txn.amount).sum

/-- Sample username used by concrete witness states. -/
def sampleUsername : String := "alice"

/-- Sample display name used by concrete witness states. -/
def sampleDisplayName : String := "Alice"

/-- The condition under which `reward_game_points` classifies the reward
as a win: the reward equals double the magnitude of the user's most
recent negative transaction for the game. -/
def winCondition (st : UserState) (game : Nat) (amount : Int) : Prop :=
  ∃ m : Int, lastNegMagnitude st game = some m ∧ amount = 2 * m

/-- A concrete state with one negative transaction for game 1:
the signup state after a successful deduction of 100 points. -/
def c3State : UserState :=
  applyLedgerOp (handle_new_user sampleUsername sampleDisplayName)
    (LedgerOp.deduct 1 100 typeGameJoin)

/-- The `games.status` values allowed by the schema CHECK constraint. -/
inductive GStatus
  | waiting
  | active
  | completed
  | cancelled
deriving DecidableEq, Repr

/-- A `game_participants` row of a lottery game: the user and the ticket
numbers bought so far. -/
structure LParticipant where
  user_id : Nat
  ticket_numbers : List Nat
deriving DecidableEq, Repr

/-- One entry of the `allTickets` array built by `drawWinner`. -/
structure LotteryTicket where
  ticketNumber : Nat
  userId : Nat
deriving DecidableEq, Repr

/-- The flattened ticket array of `drawWinner`: every ticket of every
participant, in participant order. -/
def allTickets (ps : List LParticipant) : List LotteryTicket :=
  ps.flatMap fun p =>
    p.ticket_numbers.map fun t => { ticketNumber := t, userId := p.user_id }

/-- Result of a successful lottery draw: the winner, the drawn ticket, the
total pot passed to `reward_game_points`, and the status written to the
game row. -/
structure DrawOutcome where
  winner_id : Nat
  winningTicket : Nat
  prizeAmount : Int
  newStatus : GStatus
deriving DecidableEq, Repr

/-- `drawWinner` in `Lottery.tsx`: refuses when fewer than `minPlayers`
participants (and when there are no tickets); otherwise the winning ticket
is `allTickets[idx]` where `idx = Math.floor(Math.random() *
allTickets.length)` — the uniformly random index is the parameter `idx` —
and the owner is rewarded the pot `ticketPrice * allTickets.length`. -/
def drawWinner (ps : List LParticipant) (minPlayers : Nat)
    (ticketPrice : Int) (idx : Nat) : Option DrawOutcome :=
  if ps.length < minPlayers then none
  else
    match (allTickets ps)[idx]? with
    | none => none
    | some t =>
        some { winner_id := t.userId
               winningTicket := t.ticketNumber
               prizeAmount := ticketPrice * (allTickets ps).length
               newStatus := GStatus.completed }

/-- Concrete lottery participants: user 1 holds ticket 1, user 2 holds
tickets 2 and 3. -/
def lotteryPs : List LParticipant :=
  [{ user_id := 1, ticket_numbers := [1] },
   { user_id := 2, ticket_numbers := [2, 3] }]

/-- The action `updateTimer` in `Lottery.tsx` takes when it fires: once
the remaining time is 0, with no winner known and no draw in progress, it
draws when enough participants joined and cancels otherwise. -/
inductive TimerAct
  | draw
  | cancel
deriving DecidableEq, Repr

/-- `updateTimer` decision logic from `Lottery.tsx`. -/
def updateTimerAction (remaining : Nat) (winner : Option Nat)
    (isDrawing : Bool) (ps : List LParticipant) (minPlayers : Nat) :
    Option TimerAct :=
  if remaining = 0 ∧ winner = none ∧ isDrawing = false then
    if minPlayers ≤ ps.length then some TimerAct.draw
    else some TimerAct.cancel
  else none

/-- Effect of `cancelLottery` in `Lottery.tsx`: the refund calls it issues
(one `reward_game_points(user, game, ticketPrice)` per participant) and
the status written to the game row. -/
structure CancelOutcome where
  refunds : List (Nat × Int)
  newStatus : GStatus
deriving DecidableEq, Repr

/-- `cancelLottery` in `Lottery.tsx`: loops over the participants, calls
`reward_game_points` with amount `ticketPrice` once for each, then sets
the game status to `cancelled`. -/
def cancelLottery (ps : List LParticipant) (ticketPrice : Int) :
    CancelOutcome :=
  { refunds := ps.map fun p => (p.user_id, ticketPrice)
    newStatus := GStatus.cancelled }

/-- Total amount refunded to one user by a cancellation. -/
def totalRefundTo (c : CancelOutcome) (uid : Nat) : Int :=
  ((c.refunds.filter fun r => r.1 == uid).map Prod.snd).sum

/-- A concrete lottery participant holding two tickets. -/
def c6Participant : LParticipant := { user_id := 1, ticket_numbers := [4, 9] }

/-- The client operations that write `games.status`, as a step relation on
a single game's status.  Creation inserts a fresh row with status
`waiting` (lobby `createGame`).  `joinGame` writes `active`; the lobby and
`GameSwitcher` offer the join action only on games whose status is
`waiting` (the game lists are filtered on `waiting`, and the join button
is rendered only in the `waiting` branch).  Game completion
(`handleGameCompletion` in TicTacToe, `checkWins` in `Pokie.tsx`,
`drawWinner` in `Lottery.tsx`) writes `completed` unconditionally;
`cancelLottery` writes `cancelled` unconditionally. -/
inductive GStep : GStatus → GStatus → Prop
  | join : GStep GStatus.waiting GStatus.active
  | complete (s : GStatus) : GStep s GStatus.completed
  | cancel (s : GStatus) : GStep s GStatus.cancelled

/-- A status from which the state machine never returns to `active` or
`waiting`. -/
def terminalStatus (s : GStatus) : Prop :=
  s = GStatus.completed ∨ s = GStatus.cancelled

/-- A Tic-Tac-Toe symbol (the JS `Player` values other than the overloaded
`draw` and `null`). -/
inductive TPlayer
  | X
  | O
deriving DecidableEq, Repr

/-- A Tic-Tac-Toe board: 9 cells, `none` for an empty cell. -/
abbrev TBoard := List (Option TPlayer)

/-- The 8 `winningPatterns` of the TicTacToe component: 3 rows, 3 columns,
2 diagonals. -/
def winningPatterns : List (Nat × Nat × Nat) :=
  [(0, 1, 2), (3, 4, 5), (6, 7, 8),
   (0, 3, 6), (1, 4, 7), (2, 5, 8),
   (0, 4, 8), (2, 4, 6)]

/-- The JS test `board[a] && board[a] === board[b] && board[a] ===
board[c]`: the first cell is non-null and the other two equal it. -/
def tripleMatch (b : TBoard) (t : Nat × Nat × Nat) : Bool :=
  match b.getD t.1 none with
  | none => false
  | some s => (b.getD t.2.1 none == some s) && (b.getD t.2.2 none == some s)

/-- A decided Tic-Tac-Toe game: a winner or a draw (the JS function
overloads the `Player` type with the extra value `draw`). -/
inductive TResult
  | win (p : TPlayer)
  | draw
deriving DecidableEq, Repr

/-- `checkWinner` in the TicTacToe component: returns the symbol of the
first matching pattern, else `draw` when the board is full, else `null`
(game in progress). -/
def checkWinner (b : TBoard) : Option TResult :=
  match winningPatterns.find? (tripleMatch b) with
  | some t => (b.getD t.1 none).map TResult.win
  | none =>
      if b.all (fun c => c.isSome) then some TResult.draw else none

/-- A concrete full board with no matching triple:
X O X / X O O / O X X. -/
def fullDrawBoard : TBoard :=
  [some TPlayer.X, some TPlayer.O, some TPlayer.X,
   some TPlayer.X, some TPlayer.O, some TPlayer.O,
   some TPlayer.O, some TPlayer.X, some TPlayer.X]

/-- The 8 pokie reel symbols of `Pokie.tsx` (`SYMBOLS`), named after the
emoji they render as. -/
inductive Sym
  | cherry
  | lemon
  | orange
  | grape
  | diamond
  | star
  | seven
  | bell
deriving DecidableEq, Repr

/-- The `multipliers` table in `checkWins`.  The JS fallback `|| 2` is
unreachable: every reel symbol is a key of the table and no multiplier is
falsy. -/
def multiplier : Sym → Nat
  | Sym.cherry => 2
  | Sym.lemon => 2
  | Sym.orange => 3
  | Sym.grape => 3
  | Sym.diamond => 5
  | Sym.star => 7
  | Sym.seven => 10
  | Sym.bell => 15

/-- A settled 4×4 pokie grid: `finalGrid[i][j].finalSymbol`. -/
abbrev PGrid := Fin 4 → Fin 4 → Sym

/-- Row `i` fully matches its first symbol (the JS loop compares every
cell of the row with `row[0]`; index 0 trivially matches itself). -/
def rowMatch (g : PGrid) (i : Fin 4) : Bool :=
  (List.finRange 4).all fun j => g i j == g i 0

/-- Column `j` fully matches its top symbol. -/
def colMatch (g : PGrid) (j : Fin 4) : Bool :=
  (List.finRange 4).all fun i => g i j == g 0 j

/-- The top-left-to-bottom-right diagonal fully matches `grid[0][0]`. -/
def diagMatchTL (g : PGrid) : Bool :=
  (List.finRange 4).all fun i => g i i == g 0 0

/-- The top-right-to-bottom-left diagonal fully matches `grid[0][3]`
(cells `grid[i][GRID_SIZE - 1 - i]`). -/
def diagMatchTR (g : PGrid) : Bool :=
  (List.finRange 4).all fun i => g i (3 - i) == g 0 3

/-- One entry of the `wins` array built by `checkWins` (the JS strings
`Row i+1`, `Column j+1`, `Diagonal` are modelled as tags; only the list
length feeds the payout). -/
inductive WinLine
  | row (i : Fin 4)
  | col (j : Fin 4)
  | diagTL
  | diagTR
deriving DecidableEq, Repr

/-- The `wins` array of `checkWins`: matching rows, then matching
columns, then the two diagonals. -/
def winsOf (g : PGrid) : List WinLine :=
  ((List.finRange 4).filter (rowMatch g)).map WinLine.row
    ++ ((List.finRange 4).filter (colMatch g)).map WinLine.col
    ++ (if diagMatchTL g then [WinLine.diagTL] else [])
    ++ (if diagMatchTR g then [WinLine.diagTR] else [])

/-- All 16 cells of the grid in row-major order (the iteration order of
the `forEach` loops that build `symbolCounts`). -/
def cellsOf (g : PGrid) : List Sym :=
  (List.finRange 4).flatMap fun i => (List.finRange 4).map (g i)

/-- `Object.keys(symbolCounts)`: the distinct symbols of the grid in
first-occurrence order. -/
def keysInOrder (l : List Sym) : List Sym :=
  l.foldl (fun acc s => if s ∈ acc then acc else acc ++ [s]) []

/-- The JS reduce `(a, b) => symbolCounts[a] > symbolCounts[b] ? a : b`
over `Object.keys(symbolCounts)`: keeps the accumulator only when it is
strictly more frequent, so a tie moves to the later key. -/
def mostCommonSymbol (g : PGrid) : Sym :=
  match keysInOrder (cellsOf g) with
  | [] => Sym.cherry
  | k :: ks =>
      ks.foldl
        (fun a b =>
          if (cellsOf g).count b < (cellsOf g).count a then a else b) k

/-- The winnings computed by `checkWins` when `wins.length > 0`:
`betAmount * (baseMultiplier * wins.length)` where `baseMultiplier` is the
multiplier of the most common symbol of the whole grid. -/
def checkWinsPayout (g : PGrid) (bet : Int) : Int :=
  bet * ((multiplier (mostCommonSymbol g) * (winsOf g).length : Nat) : Int)

/-- Build a grid from a row-major list of rows (total encoding of a
concrete 4×4 JS array). -/
def gridOfLists (rows : List (List Sym)) : PGrid :=
  fun i j => (rows.getD i.val []).getD j.val Sym.cherry

/-- A grid whose top row is four cherries and which contains no other
fully-matching row, column, or diagonal, but in which bell (multiplier
15) is the most common symbol (8 occurrences against 4 cherries). -/
def c5Grid : PGrid :=
  gridOfLists
    [[Sym.cherry, Sym.cherry, Sym.cherry, Sym.cherry],
     [Sym.bell, Sym.bell, Sym.bell, Sym.lemon],
     [Sym.bell, Sym.bell, Sym.lemon, Sym.bell],
     [Sym.lemon, Sym.lemon, Sym.bell, Sym.bell]]

theorem txSum_cons (t : Txn) (l : List Txn) :
    txSum (t :: l) = t.amount + txSum l := by
  simp [txSum]

theorem applyLedgerOp_preserves_balance_eq (st : UserState) (op : LedgerOp)
    (h : st.profile.points_balance = txSum st.transactions) :
    (applyLedgerOp st op).profile.points_balance =
      txSum (applyLedgerOp st op).transactions := by
  cases op with
  | deduct game amount ttype =>
      by_cases hlt : st.profile.points_balance < amount
      · simpa [applyLedgerOp, deduct_game_points, hlt] using h
      · simp [applyLedgerOp, deduct_game_points, hlt, txSum_cons]
        omega
  | reward game amount =>
      simp [applyLedgerOp, reward_game_points, txSum_cons]
      omega
  | loss game =>
      simpa [applyLedgerOp, handle_game_loss] using h

theorem runLedger_preserves_balance_eq (ops : List LedgerOp) :
    ∀ st : UserState, st.profile.points_balance = txSum st.transactions →
      (runLedger st ops).profile.points_balance =
        txSum (runLedger st ops).transactions := by
  induction ops with
  | nil => intro st h; simpa [runLedger] using h
  | cons op ops ih =>
      intro st h
      simpa [runLedger] using
        ih (applyLedgerOp st op) (applyLedgerOp_preserves_balance_eq st op h)

/-- C1 (counterexample): already in the signup state produced by
`handle_new_user` — before any further ledger call — the balance (1000)
differs from the signup bonus plus the signed sum of all transaction rows
(1000 + 1000), because the signup bonus is itself recorded as a
transaction row. -/
theorem C1_counterexample :
    ¬ ((runLedger (handle_new_user sampleUsername sampleDisplayName)
          []).profile.points_balance =
        signupBonusAmount +
          txSum (runLedger (handle_new_user sampleUsername sampleDisplayName)
              []).transactions) := by
  decide

/-- C1 (amended): for every sequence of calls to the ledger functions
starting from the signup state created by `handle_new_user`, the user's
`points_balance` equals the signed sum of all of that user's transaction
rows (equivalently, the signup bonus plus the signed sum of the rows other
than the signup-bonus row, since that bonus is itself recorded as a
transaction row). -/
theorem C1_ledger_balance_invariant (username display_name : String)
    (ops : List LedgerOp) :
    (runLedger (handle_new_user username display_name)
        ops).profile.points_balance =
      txSum (runLedger (handle_new_user username display_name)
          ops).transactions := by
  refine runLedger_preserves_balance_eq ops _ ?_
  simp [handle_new_user, txSum, profilesBalanceDefault, signupBonusAmount]

/-- C2: `deduct_game_points` fails exactly when the current balance is
strictly below the requested amount; a failing call leaves the state
unchanged; a successful call decreases the balance by exactly the amount
and appends exactly one transaction row whose signed amount is the
negated amount. -/
theorem C2_deduct_spec (st : UserState) (game : Nat) (amount : Int)
    (ttype : String) :
    (deduct_game_points st game amount ttype = none ↔
        st.profile.points_balance < amount)
    ∧ (st.profile.points_balance < amount →
        applyLedgerOp st (LedgerOp.deduct game amount ttype) = st)
    ∧ (¬ st.profile.points_balance < amount →
        ∃ tx : Txn,
          deduct_game_points st game amount ttype =
            some { profile :=
                     { st.profile with
                       points_balance := st.profile.points_balance - amount }
                   transactions := tx :: st.transactions }
          ∧ tx.amount = -amount) := by
  refine ⟨?_, ?_, ?_⟩
  · by_cases hlt : st.profile.points_balance < amount <;>
      simp [deduct_game_points, hlt]
  · intro hlt
    simp [applyLedgerOp, deduct_game_points, hlt]
  · intro hlt
    simp only [deduct_game_points, if_neg hlt]
    exact ⟨_, rfl, rfl⟩

/-- C2 witness: a concrete failing call (balance 1000 < amount 2000)
leaves the state unchanged, and a concrete succeeding call appends a
negated row. -/
theorem C2_deduct_spec_witness :
    (applyLedgerOp (handle_new_user sampleUsername sampleDisplayName)
        (LedgerOp.deduct 1 2000 typeGameJoin) =
      handle_new_user sampleUsername sampleDisplayName)
    ∧ ∃ tx : Txn,
        deduct_game_points (handle_new_user sampleUsername sampleDisplayName)
            1 250 typeGameJoin =
          some { profile :=
                   { (handle_new_user sampleUsername
                        sampleDisplayName).profile with
                     points_balance :=
                       (handle_new_user sampleUsername
                           sampleDisplayName).profile.points_balance - 250 }
                 transactions :=
                   tx :: (handle_new_user sampleUsername
                       sampleDisplayName).transactions }
        ∧ tx.amount = -250 :=
  ⟨(C2_deduct_spec (handle_new_user sampleUsername sampleDisplayName) 1 2000
        typeGameJoin).2.1 (by decide),
    (C2_deduct_spec (handle_new_user sampleUsername sampleDisplayName) 1 250
        typeGameJoin).2.2 (by decide)⟩

theorem lastNegMagnitude_pos (st : UserState) (game : Nat) (m : Int)
    (h : lastNegMagnitude st game = some m) : 1 ≤ m := by
  unfold lastNegMagnitude at h
  cases hf : st.transactions.find?
      (fun t => t.game_id == some game && decide (t.amount < 0)) with
  | none => rw [hf] at h; cases h
  | some t =>
      rw [hf] at h
      have hp := List.find?_some hf
      simp only [Bool.and_eq_true, beq_iff_eq, decide_eq_true_eq] at hp
      simp only [Option.map_some', Option.some.injEq] at h
      rw [← h, abs_of_neg hp.2]
      omega

/-- C3: `reward_game_points` always adds the amount to the balance and
increments `total_games_played`; it increments `total_games_won` exactly
when the amount equals double the magnitude of the most recent negative
transaction for the game, and the reward row is then typed `game_win`;
when the amount equals that magnitude exactly, the reward row is typed
`game_draw` and `total_games_won` is unchanged. -/
theorem C3_reward_spec (st : UserState) (game : Nat) (amount : Int) :
    ((reward_game_points st game amount).profile.points_balance =
        st.profile.points_balance + amount)
    ∧ ((reward_game_points st game amount).profile.total_games_played =
        st.profile.total_games_played + 1)
    ∧ ((reward_game_points st game amount).profile.total_games_won =
          st.profile.total_games_won + 1 ↔ winCondition st game amount)
    ∧ (∀ m : Int, lastNegMagnitude st game = some m → amount = 2 * m →
        (reward_game_points st game amount).transactions.head?.map
            Txn.transaction_type = some typeGameWin)
    ∧ (∀ m : Int, lastNegMagnitude st game = some m → amount = m →
        ((reward_game_points st game amount).transactions.head?.map
            Txn.transaction_type = some typeGameDraw)
        ∧ (reward_game_points st game amount).profile.total_games_won =
            st.profile.total_games_won) := by
  refine ⟨?_, ?_, ?_, ?_, ?_⟩
  · simp [reward_game_points]
  · simp [reward_game_points]
  · cases hm : lastNegMagnitude st game with
    | none =>
        simp [reward_game_points, hm, winCondition, descWinReward, descGameReward]
    | some m =>
        have hm1 : 1 ≤ m := lastNegMagnitude_pos st game m hm
        by_cases hd : amount = m
        · have h2 : ¬ (m = 2 * m) := by omega
          simp [reward_game_points, hm, hd, winCondition, h2, descWinReward, descDrawRefund]
        · by_cases hw : amount = 2 * m
          · simp [reward_game_points, hm, hd, hw, winCondition, descWinReward, descDrawRefund, descGameReward]
            omega
          · simp [reward_game_points, hm, hd, hw, winCondition, descWinReward, descDrawRefund, descGameReward]
  · intro m hm hw
    have hm1 : 1 ≤ m := lastNegMagnitude_pos st game m hm
    have hd : ¬ (2 * m = m) := by omega
    simp [reward_game_points, hm, hw, hd, typeGameWin, descWinReward, descDrawRefund]
  · intro m hm hd
    have hm1 : 1 ≤ m := lastNegMagnitude_pos st game m hm
    have h2 : ¬ (m = 2 * m) := by omega
    constructor
    · simp [reward_game_points, hm, hd, h2, typeGameDraw, descWinReward, descDrawRefund]
    · simp [reward_game_points, hm, hd, h2, descWinReward, descDrawRefund]

/-- C3 witness: the specification instantiated at a concrete state where
the most recent negative transaction for game 1 has magnitude 100 and the
reward is 200 (a win, recorded with a `game_win` row). -/
theorem C3_reward_spec_witness :
    ((reward_game_points c3State 1 200).profile.total_games_won =
        c3State.profile.total_games_won + 1 ↔ winCondition c3State 1 200)
    ∧ winCondition c3State 1 200
    ∧ (reward_game_points c3State 1 200).transactions.head?.map
        Txn.transaction_type = some typeGameWin :=
  ⟨(C3_reward_spec c3State 1 200).2.2.1, ⟨100, by decide, by decide⟩,
    (C3_reward_spec c3State 1 200).2.2.2.1 100 (by decide) (by decide)⟩

/-- C9: `handle_game_loss` increments `total_games_played` by exactly one
and changes nothing else: balance, win count, the other profile columns,
and the transaction rows are all unchanged (`updated_at` is outside the
model). -/
theorem C9_handle_game_loss_frame (st : UserState) (game : Nat) :
    ((handle_game_loss st game).profile.total_games_played =
        st.profile.total_games_played + 1)
    ∧ (handle_game_loss st game).profile.points_balance =
        st.profile.points_balance
    ∧ (handle_game_loss st game).profile.total_games_won =
        st.profile.total_games_won
    ∧ (handle_game_loss st game).profile.username = st.profile.username
    ∧ (handle_game_loss st game).profile.display_name =
        st.profile.display_name
    ∧ (handle_game_loss st game).profile.vip_level = st.profile.vip_level
    ∧ (handle_game_loss st game).transactions = st.transactions := by
  simp [handle_game_loss]

/-- C10: when the reward amount is neither the magnitude of the most
recent negative transaction for the game nor double it (including the
case where no such transaction exists), `reward_game_points` records a
`game_reward` transaction, leaves `total_games_won` unchanged, still adds
the full amount to the balance, and increments `total_games_played`. -/
theorem C10_generic_reward (st : UserState) (game : Nat) (amount : Int)
    (h : ∀ m : Int, lastNegMagnitude st game = some m →
      amount ≠ m ∧ amount ≠ 2 * m) :
    ((reward_game_points st game amount).transactions.head?.map
        Txn.transaction_type = some typeGameReward)
    ∧ (reward_game_points st game amount).profile.total_games_won =
        st.profile.total_games_won
    ∧ (reward_game_points st game amount).profile.points_balance =
        st.profile.points_balance + amount
    ∧ (reward_game_points st game amount).profile.total_games_played =
        st.profile.total_games_played + 1 := by
  cases hm : lastNegMagnitude st game with
  | none =>
      refine ⟨?_, ?_, ?_, ?_⟩ <;> simp [reward_game_points, hm, typeGameReward, descWinReward, descDrawRefund, descGameReward]
  | some m =>
      obtain ⟨hd, hw⟩ := h m hm
      refine ⟨?_, ?_, ?_, ?_⟩ <;>
        simp [reward_game_points, hm, hd, hw, typeGameReward, descWinReward, descDrawRefund, descGameReward]

/-- C10 witness: a lottery-style pot of 300 = 3 × 100 rewarded to a user
whose most recent deduction for game 1 was 100 points: neither equal nor
double, so the reward is generic. -/
theorem C10_generic_reward_witness :
    ((reward_game_points c3State 1 300).transactions.head?.map
        Txn.transaction_type = some typeGameReward)
    ∧ (reward_game_points c3State 1 300).profile.total_games_won =
        c3State.profile.total_games_won
    ∧ (reward_game_points c3State 1 300).profile.points_balance =
        c3State.profile.points_balance + 300
    ∧ (reward_game_points c3State 1 300).profile.total_games_played =
        c3State.profile.total_games_played + 1 :=
  C10_generic_reward c3State 1 300
    (by intro m hm; refine ⟨?_, ?_⟩ <;> · rw [show m = 100 by
          have : lastNegMagnitude c3State 1 = some 100 := by decide
          rw [this] at hm; exact (Option.some.injEq _ _ ▸ hm).symm]; decide)

/-- C4: with fewer than `minPlayers` participants `drawWinner` resolves no
winner; otherwise, for a uniformly random index into the flattened ticket
list, the drawn ticket is exactly the entry at that index (so each ticket
occurrence is equally likely) and its owner is rewarded exactly
`ticketPrice * N` where `N` is the total number of tickets sold. -/
theorem C4_drawWinner_spec (ps : List LParticipant) (minPlayers : Nat)
    (ticketPrice : Int) (idx : Nat) :
    (ps.length < minPlayers → drawWinner ps minPlayers ticketPrice idx = none)
    ∧ (minPlayers ≤ ps.length →
        ∀ h : idx < (allTickets ps).length,
          drawWinner ps minPlayers ticketPrice idx =
            some { winner_id := ((allTickets ps).get ⟨idx, h⟩).userId
                   winningTicket := ((allTickets ps).get ⟨idx, h⟩).ticketNumber
                   prizeAmount := ticketPrice * (allTickets ps).length
                   newStatus := GStatus.completed }) := by
  constructor
  · intro hlt
    simp [drawWinner, hlt]
  · intro hge h
    have hnl : ¬ ps.length < minPlayers := not_lt.mpr hge
    simp [drawWinner, hnl, List.getElem?_eq_getElem h]

/-- C4 witness: drawing index 2 among the three tickets of `lotteryPs`
picks ticket 3, owned by user 2, for a pot of 10 × 3 = 30. -/
theorem C4_drawWinner_spec_witness :
    drawWinner lotteryPs 2 10 2 =
      some { winner_id := 2
             winningTicket := 3
             prizeAmount := 30
             newStatus := GStatus.completed } := by
  rw [(C4_drawWinner_spec lotteryPs 2 10 2).2 (by decide) (by decide)]
  rfl

theorem refund_filter_single (tp : Int) (uid : Nat) :
    ∀ ps : List LParticipant, (ps.map LParticipant.user_id).Nodup →
      uid ∈ ps.map LParticipant.user_id →
      ((ps.map fun q => (q.user_id, tp)).filter fun r => r.1 == uid) =
        [(uid, tp)] := by
  intro ps
  induction ps with
  | nil =>
      intro _ hmem
      cases hmem
  | cons q ps ih =>
      intro hnd hmem
      rw [List.map_cons, List.nodup_cons] at hnd
      rw [List.map_cons, List.mem_cons] at hmem
      rcases hmem with hq | hps
      · subst hq
        have hrest :
            ((ps.map fun p2 => (p2.user_id, tp)).filter
              fun r => r.1 == q.user_id) = [] := by
          refine List.filter_eq_nil_iff.mpr ?_
          intro r hr
          obtain ⟨q2, hq2, rfl⟩ := List.mem_map.mp hr
          simp only [beq_iff_eq]
          intro hcontra
          exact hnd.1 (List.mem_map.mpr ⟨q2, hq2, hcontra⟩)
        rw [List.map_cons, List.filter_cons]
        simp [hrest]
      · have hne : ¬ (q.user_id == uid) = true := by
          rw [beq_iff_eq]
          intro hcontra
          exact hnd.1 (hcontra ▸ hps)
        simp only [List.map_cons, List.filter_cons, hne, if_false,
          Bool.false_eq_true]
        exact ih hnd.2 hps

/-- C6 (counterexample): the deadline elapses with one participant (fewer
than the 3 required), so the timer cancels; the participant holds 2
tickets bought at 5 points each, but `cancelLottery` refunds only 5
points, not 2 × 5 = 10. -/
theorem C6_counterexample :
    updateTimerAction 0 none false [c6Participant] 3 = some TimerAct.cancel
    ∧ totalRefundTo (cancelLottery [c6Participant] 5) 1 = 5
    ∧ ¬ totalRefundTo (cancelLottery [c6Participant] 5) 1 =
        5 * (c6Participant.ticket_numbers.length : Int) := by
  decide

/-- C6 (amended): when the deadline elapses while the participant count is
strictly below `minPlayers`, the timer triggers cancellation, the game
status is set to `cancelled`, and every participant is refunded exactly
one `ticketPrice` — once per participant, regardless of how many tickets
they hold (not `ticketPrice` per ticket as the claim stated). -/
theorem C6_cancellation_spec (remaining : Nat) (winner : Option Nat)
    (ps : List LParticipant) (minPlayers : Nat) (ticketPrice : Int)
    (p : LParticipant) (hrem : remaining = 0) (hw : winner = none)
    (hlt : ps.length < minPlayers)
    (hnodup : (ps.map LParticipant.user_id).Nodup) (hp : p ∈ ps) :
    updateTimerAction remaining winner false ps minPlayers =
      some TimerAct.cancel
    ∧ (cancelLottery ps ticketPrice).newStatus = GStatus.cancelled
    ∧ totalRefundTo (cancelLottery ps ticketPrice) p.user_id = ticketPrice := by
  refine ⟨?_, rfl, ?_⟩
  · have hnle : ¬ minPlayers ≤ ps.length := not_le.mpr hlt
    simp [updateTimerAction, hrem, hw, hnle]
  · have huid : p.user_id ∈ ps.map LParticipant.user_id :=
      List.mem_map_of_mem LParticipant.user_id hp
    unfold totalRefundTo cancelLottery
    rw [refund_filter_single ticketPrice p.user_id ps hnodup huid]
    simp

/-- C6 witness: the amended statement at the concrete one-participant,
two-ticket state. -/
theorem C6_cancellation_spec_witness :
    updateTimerAction 0 none false [c6Participant] 3 = some TimerAct.cancel
    ∧ (cancelLottery [c6Participant] 5).newStatus = GStatus.cancelled
    ∧ totalRefundTo (cancelLottery [c6Participant] 5)
        c6Participant.user_id = 5 :=
  C6_cancellation_spec 0 none [c6Participant] 3 5 c6Participant rfl rfl
    (by decide) (by decide) (by decide)

/-- C7: in the step relation formed by the client status writes, a game
whose status is `completed` or `cancelled` never transitions back to
`active` or `waiting`: every status reachable from a terminal status is
itself terminal. -/
theorem C7_no_status_regression (s t : GStatus) (hs : terminalStatus s)
    (h : Relation.ReflTransGen GStep s t) :
    t ≠ GStatus.active ∧ t ≠ GStatus.waiting := by
  have ht : terminalStatus t := by
    induction h with
    | refl => exact hs
    | tail hab hbc ih =>
        cases hbc with
        | join => simp [terminalStatus] at ih
        | complete s2 => exact Or.inl rfl
        | cancel s2 => exact Or.inr rfl
  rcases ht with h2 | h2 <;> subst h2 <;> exact ⟨by decide, by decide⟩

/-- C7 witness: the theorem applied to the empty step sequence from
`completed`. -/
theorem C7_no_status_regression_witness :
    GStatus.completed ≠ GStatus.active
    ∧ GStatus.completed ≠ GStatus.waiting :=
  C7_no_status_regression GStatus.completed GStatus.completed (Or.inl rfl)
    Relation.ReflTransGen.refl

/-- C8: for every 9-cell board, `checkWinner` returns a symbol exactly
when one of the 8 fixed triples holds three equal non-null cells; the
board `[X, X, X, null × 6]` yields winner X; a full board with no matching
triple yields a draw; the empty board yields `null` (game in progress). -/
theorem C8_checkWinner_spec :
    (∀ b : TBoard, b.length = 9 →
      ((∃ t ∈ winningPatterns, tripleMatch b t = true) ↔
        ∃ p : TPlayer, checkWinner b = some (TResult.win p)))
    ∧ checkWinner
        [some TPlayer.X, some TPlayer.X, some TPlayer.X,
          none, none, none, none, none, none] = some (TResult.win TPlayer.X)
    ∧ (∀ b : TBoard, b.length = 9 →
        (∀ t ∈ winningPatterns, tripleMatch b t = false) →
        b.all (fun c => c.isSome) = true → checkWinner b = some TResult.draw)
    ∧ checkWinner (List.replicate 9 none) = none := by
  refine ⟨?_, by decide, ?_, by decide⟩
  · intro b _
    constructor
    · rintro ⟨t, htmem, htrue⟩
      have hsome : (winningPatterns.find? (tripleMatch b)).isSome := by
        rw [List.find?_isSome]
        exact ⟨t, htmem, htrue⟩
      obtain ⟨t2, ht2⟩ := Option.isSome_iff_exists.mp hsome
      have hp2 : tripleMatch b t2 = true := List.find?_some ht2
      unfold checkWinner
      rw [ht2]
      unfold tripleMatch at hp2
      cases hc : b.getD t2.1 none with
      | none => rw [hc] at hp2; cases hp2
      | some s =>
          refine ⟨s, ?_⟩
          have hc2 : b[t2.1]?.getD none = some s := by
            simpa [List.getD] using hc
          simp [hc2]
    · rintro ⟨p, hp⟩
      cases hf : winningPatterns.find? (tripleMatch b) with
      | none =>
          exfalso
          unfold checkWinner at hp
          rw [hf] at hp
          by_cases hall : b.all (fun c => c.isSome) = true <;>
            simp [hall] at hp
      | some t =>
          exact ⟨t, List.mem_of_find?_eq_some hf, List.find?_some hf⟩
  · intro b _ hnone hall
    have hf : winningPatterns.find? (tripleMatch b) = none := by
      rw [List.find?_eq_none]
      intro t ht
      rw [hnone t ht]
      exact Bool.false_ne_true
    unfold checkWinner
    rw [hf, if_pos hall]

/-- C8 witness: the general parts of the specification instantiated at
concrete boards — a winning board and the full no-triple board. -/
theorem C8_checkWinner_spec_witness :
    (∃ p : TPlayer,
      checkWinner
          [some TPlayer.X, some TPlayer.X, some TPlayer.X,
            none, none, none, none, none, none] = some (TResult.win p))
    ∧ checkWinner fullDrawBoard = some TResult.draw :=
  ⟨(C8_checkWinner_spec.1
        [some TPlayer.X, some TPlayer.X, some TPlayer.X,
          none, none, none, none, none, none] (by decide)).mp
      ⟨(0, 1, 2), by decide, by decide⟩,
    C8_checkWinner_spec.2.2.1 fullDrawBoard (by decide) (by decide)
      (by decide)⟩

/-- C5 (counterexample): `c5Grid` has an all-cherry top row, no other
matching line, and exactly one counted win line, yet for bet 1 the payout
is 15 (bet × multiplier(bell) × 1), not bet × multiplier(cherry) × 1 = 2,
because `checkWins` takes the multiplier of the grid-wide most common
symbol rather than the winning row's symbol. -/
theorem C5_counterexample :
    rowMatch c5Grid 0 = true
    ∧ rowMatch c5Grid 1 = false
    ∧ rowMatch c5Grid 2 = false
    ∧ rowMatch c5Grid 3 = false
    ∧ colMatch c5Grid 0 = false
    ∧ colMatch c5Grid 1 = false
    ∧ colMatch c5Grid 2 = false
    ∧ colMatch c5Grid 3 = false
    ∧ diagMatchTL c5Grid = false
    ∧ diagMatchTR c5Grid = false
    ∧ (winsOf c5Grid).length = 1
    ∧ multiplier (c5Grid 0 0) = 2
    ∧ checkWinsPayout c5Grid 1 = 15
    ∧ checkWinsPayout c5Grid 1 ≠ 1 * (multiplier (c5Grid 0 0) : Int) * 1 := by
  decide

/-- C5 (amended): a 4×4 grid whose top row consists of four identical
symbols and which contains no other fully-matching row, column, or
diagonal yields exactly one counted line, and the payout is
`betAmount * multiplier(mostCommonSymbol) * 1` where `mostCommonSymbol`
is the most frequent symbol of the whole grid (not necessarily the top
row's symbol; the two coincide only when the top-row symbol is the
dominant one). -/
theorem C5_pokie_payout (g : PGrid) (bet : Int)
    (h0 : rowMatch g 0 = true)
    (hr : ∀ i : Fin 4, i ≠ 0 → rowMatch g i = false)
    (hc : ∀ j : Fin 4, colMatch g j = false)
    (hd1 : diagMatchTL g = false) (hd2 : diagMatchTR g = false) :
    (winsOf g).length = 1
    ∧ checkWinsPayout g bet =
        bet * (multiplier (mostCommonSymbol g) : Int) * 1 := by
  have h4 : (List.finRange 4) = ([0, 1, 2, 3] : List (Fin 4)) := by decide
  have hw : winsOf g = [WinLine.row 0] := by
    unfold winsOf
    rw [h4]
    simp [List.filter_cons, h0, hr 1 (by decide), hr 2 (by decide),
      hr 3 (by decide), hc 0, hc 1, hc 2, hc 3, hd1, hd2]
  constructor
  · rw [hw]
    rfl
  · unfold checkWinsPayout
    rw [hw]
    push_cast
    simp

/-- C5 witness: the amended statement at the concrete grid `c5Grid` with
bet 1. -/
theorem C5_pokie_payout_witness :
    (winsOf c5Grid).length = 1
    ∧ checkWinsPayout c5Grid 1 =
        1 * (multiplier (mostCommonSymbol c5Grid) : Int) * 1 :=
  C5_pokie_payout c5Grid 1 (by decide) (by decide) (by decide) (by decide)
    (by decide)

end TokenArena
